import Mathlib

/-!
Verification development for the `LogWatcher` service in
`src/html/n8n-logger/apache_log_ingester.py`.

The Python source is shallowly embedded: pure fragments become Lean
functions; external effects (the tailed file, `subprocess` invocations of
`git`/`grep`, `os.path.abspath`/`relpath`, `os.path.getmtime`) are passed
in explicitly, either as a timed list of input lines or as query functions
collected in a `GitEnv` record.  A query function returning `none` models
the corresponding subprocess raising `subprocess.CalledProcessError`
(non-zero exit), which is exactly what the source catches.
-/

/-- Python `str.isspace` characters relevant to `str.strip()` (ASCII range;
the log content handled by the service is ASCII). -/
def pyIsSpace (c : Char) : Bool :=
  c == ' ' || c == '\t' || c == '\n' || c == '\r' || c == '\x0b' || c == '\x0c'

/-- Python `str.strip()` with no argument: drop leading and trailing
whitespace. -/
def pyStrip (s : String) : String :=
  ⟨((s.data.dropWhile pyIsSpace).reverse.dropWhile pyIsSpace).reverse⟩

/-- `leadsWith n l` is true when the list `n` is an initial segment of `l`. -/
def leadsWith : List Char → List Char → Bool
  | [], _ => true
  | _ :: _, [] => false
  | a :: as, b :: bs => (a == b) && leadsWith as bs

/-- `hasSub n l` is true when `n` occurs as a contiguous sublist of `l`
(substring containment, as used to model `re.search` on literal words). -/
def hasSub (needle : List Char) : List Char → Bool
  | [] => needle.isEmpty
  | c :: rest => leadsWith needle (c :: rest) || hasSub needle rest

/-- ASCII lower-casing, modelling the effect of `re.IGNORECASE` on the
ASCII literals of the error-start pattern. -/
def lowerChar (c : Char) : Char :=
  if 'A' ≤ c ∧ c ≤ 'Z' then Char.ofNat (c.toNat + 32) else c

/-- `self.error_start_pattern.search(line)` for the compiled pattern
`(PHP (Fatal error|Warning|Notice)|\[error\])` with `re.IGNORECASE`
(source line 49): a case-insensitive substring test for one of the four
alternatives. -/
def errorStart (line : String) : Bool :=
  let l := line.data.map lowerChar
  hasSub ("php fatal error").data l || hasSub ("php warning").data l ||
  hasSub ("php notice").data l || hasSub ("[error]").data l

/-- A line of the tailed log together with its arrival time in
milliseconds.  The tailer only observes arrival gaps (its two poll sleeps
merely bound the detection latency), so a timed line list is a faithful
input model for `tail_log` after the initial seek-to-end. -/
structure TimedLine where
  t : Nat
  s : String
deriving DecidableEq

/-- The two phases of the `tail_log` loop (source lines 122-150): the outer
`while True` (Idle/Scanning, holding the `current_trace` accumulator) and
the inner bounded-wait loop (Collecting, additionally holding the time of
the last appended line, `fcntl_start_time`).  Accumulators are kept in
reverse order. -/
inductive TailPhase
  | idle : List String → TailPhase
  | collecting : List String → Nat → TailPhase
deriving DecidableEq

/-- One pass of the outer-loop body of `tail_log` on a line that was read
(source lines 129-135): strip the line; if it matches the error-start
pattern and `current_trace` is non-empty, flush the accumulator as a trace;
then append the stripped line unconditionally and enter the inner
collecting loop with the wait timer started at the arrival time. -/
def idleStep (acc : List String) (e : TimedLine) : List String × TailPhase :=
  let line := pyStrip e.s
  if errorStart line && !acc.isEmpty then
    ([String.intercalate "\n" acc.reverse], .collecting [line] e.t)
  else
    ([], .collecting (line :: acc) e.t)

/-- One step of the `tail_log` state machine on the next arriving line
(source lines 122-150).  In Collecting, a line arriving 2000 ms or more
after the previous append is preceded by a quiet-period flush (the inner
loop times out, yields, clears the accumulator and breaks; the outer loop
then reads this line); a line arriving earlier is stripped and appended
with the timer reset, with no pattern test of any kind. -/
def tailStep (ph : TailPhase) (e : TimedLine) : List String × TailPhase :=
  match ph with
  | .idle acc => idleStep acc e
  | .collecting acc last =>
    if 2000 ≤ e.t - last then
      let p := idleStep [] e
      (String.intercalate "\n" acc.reverse :: p.1, p.2)
    else
      ([], .collecting (pyStrip e.s :: acc) e.t)

/-- Run the tailer over a finite list of timed lines.  After the last line
the stream is silent, so a non-empty Collecting accumulator is flushed by
the quiet-period timeout, and the outer loop then blocks forever yielding
nothing further. -/
def runTail : List TimedLine → TailPhase → List String
  | [], .idle _ => []
  | [], .collecting acc _ => [String.intercalate "\n" acc.reverse]
  | e :: rest, ph => (tailStep ph e).1 ++ runTail rest (tailStep ph e).2

/-- The full trace sequence produced by `tail_log` for a timed input,
starting in the Idle/Scanning phase with an empty accumulator. -/
def tailLog (evs : List TimedLine) : List String := runTail evs (.idle [])

/-- C1: the claim states that in Idle/Scanning a line that does not match
the error-start pattern is discarded when the accumulator is empty, so that
for the input `INFO ok`, the PHP fatal line, and the stack line (all within
2 seconds, followed by silence) exactly one trace of only the two PHP lines
is emitted.  The code instead appends every line read in the outer loop to
`current_trace` unconditionally (line 135; the pattern test at line 130
only guards a flush, and that flush is dead because the accumulator is
always empty on reentry to the outer loop), so the single emitted trace
contains all three lines, `INFO ok` included. -/
theorem C1_tail_keeps_nonmatching_lines :
    tailLog [⟨0, "INFO ok"⟩, ⟨100, "PHP Fatal error: X in a.php on line 10"⟩,
             ⟨200, "  stack frame 1"⟩]
      = ["INFO ok\nPHP Fatal error: X in a.php on line 10\nstack frame 1"] := by
  rfl

/-- C3: in the Collecting phase a line arriving strictly within the 2
second quiet period is stripped and appended to the accumulator with the
timer reset, even when the line itself matches the error-start pattern; in
particular two error-start lines 1 second apart are absorbed into a single
emitted trace with no re-split on the second start marker. -/
theorem C3_collecting_absorbs :
    (∀ (e : TimedLine) (acc : List String) (last : Nat),
        errorStart (pyStrip e.s) = true → e.t - last < 2000 →
        tailStep (.collecting acc last) e = ([], .collecting (pyStrip e.s :: acc) e.t))
  ∧ tailLog [⟨0, "PHP Fatal error: A"⟩, ⟨1000, "PHP Warning: B"⟩]
      = ["PHP Fatal error: A\nPHP Warning: B"] := by
  constructor
  · intro e acc last _ hgap
    simp only [tailStep, if_neg (Nat.not_le.mpr hgap)]
  · rfl

/-- C3 witness: the absorption step evaluated on a concrete error-start
line arriving 1 second into the quiet period. -/
theorem C3_witness :
    tailStep (.collecting ["PHP Fatal error: A"] 0) ⟨1000, "PHP Warning: B"⟩
      = ([], .collecting (pyStrip "PHP Warning: B" :: ["PHP Fatal error: A"]) 1000) :=
  C3_collecting_absorbs.1 ⟨1000, "PHP Warning: B"⟩ ["PHP Fatal error: A"] 0
    (by decide) (by decide)

/-- `os.path.dirname` on POSIX path character lists, following
`posixpath.dirname`: keep everything up to and including the last slash,
then, when the kept part is non-empty and not made of slashes only, strip
its trailing slashes. -/
def keepToLastSlash (p : List Char) : List Char :=
  (p.reverse.dropWhile (fun c => !(c == '/'))).reverse

def dirnameL (p : List Char) : List Char :=
  if keepToLastSlash p ≠ [] ∧ ¬ ((keepToLastSlash p).all (fun c => c == '/') = true) then
    ((keepToLastSlash p).reverse.dropWhile (fun c => c == '/')).reverse
  else keepToLastSlash p

/-- `os.path.dirname` on strings. -/
def dirname (s : String) : String := ⟨dirnameL s.data⟩

theorem revDropPre (q : Char → Bool) (l : List Char) :
    (l.reverse.dropWhile q).reverse <+: l := by
  have h : l.reverse.dropWhile q <:+ l.reverse := List.dropWhile_suffix q
  have h2 := List.reverse_prefix.mpr h
  simpa using h2

theorem dirnameL_isPre (p : List Char) : dirnameL p <+: p := by
  unfold dirnameL
  split
  · exact (revDropPre _ _).trans (revDropPre _ p)
  · exact revDropPre _ p

/-- Each step of the upward walk strictly shortens the search path unless
it leaves it unchanged. -/
theorem dirname_length_lt (s : String) (h : dirname s ≠ s) :
    (dirname s).length < s.length := by
  have hpre : (dirname s).data <+: s.data := dirnameL_isPre s.data
  have hlen : (dirname s).data.length ≤ s.data.length := hpre.length_le
  rcases Nat.lt_or_ge (dirname s).data.length s.data.length with hlt | hge
  · exact hlt
  · exfalso
    apply h
    have heq : (dirname s).data = s.data :=
      hpre.eq_of_length (Nat.le_antisymm hlen hge)
    cases s
    exact congrArg String.mk heq

/-- The `while True` search loop of `find_vhost_for_path` (source lines
184-193), with the iteration count made explicit as fuel and the number of
issued `grep` commands accumulated in `k`.  `oracle sp` is the raw output
of `subprocess.getoutput("grep -l '<sp>' /etc/apache2/sites-enabled/* || true")`;
the loop greps the current search path, stops with that output when its
stripped form is non-empty, and otherwise moves to the parent directory,
stopping with no answer when the parent equals the search path or is the
filesystem root `/`.  `none` signals fuel exhaustion; the termination
theorem shows a fuel of `length + 1` is always sufficient. -/
def vhostWalk (oracle : String → String) : Nat → String → Nat → Option (Option String × Nat)
  | 0, _, _ => none
  | fuel + 1, sp, k =>
    if pyStrip (oracle sp) ≠ "" then some (some (pyStrip (oracle sp)), k + 1)
    else if dirname sp = sp ∨ dirname sp = "/" then some (none, k + 1)
    else vhostWalk oracle fuel (dirname sp) (k + 1)

theorem vhostWalk_fuel_sufficient (fuel : Nat) :
    ∀ (oracle : String → String) (sp : String) (k : Nat),
      sp.length < fuel → (vhostWalk oracle fuel sp k).isSome = true := by
  induction fuel with
  | zero => intro _ sp _ h; exact absurd h (Nat.not_lt_zero _)
  | succ n ih =>
    intro oracle sp k h
    rw [vhostWalk]
    split
    · rfl
    · split
      · rfl
      · rename_i hstop
        push_neg at hstop
        apply ih
        have hlt := dirname_length_lt sp hstop.1
        omega

theorem vhostWalk_all_miss (fuel : Nat) :
    ∀ (oracle : String → String) (sp : String) (k : Nat),
      (∀ q, pyStrip (oracle q) = "") → sp.length < fuel →
      ∃ j, vhostWalk oracle fuel sp k = some (none, j) := by
  induction fuel with
  | zero => intro _ sp _ _ h; exact absurd h (Nat.not_lt_zero _)
  | succ n ih =>
    intro oracle sp k hm h
    rw [vhostWalk]
    simp only [hm sp, ne_eq, not_true_eq_false, if_false]
    split
    · exact ⟨k + 1, rfl⟩
    · rename_i hstop
      push_neg at hstop
      apply ih _ _ _ hm
      have hlt := dirname_length_lt sp hstop.1
      omega

/-- C9: the upward walk of the vhost resolver terminates for every input:
starting from any search path, the loop body runs at most `length + 1`
times (each move to the parent strictly shortens the path string, and the
loop stops when the parent equals the current path or is the filesystem
root); and when no grep along the way produces a match, the walk answers
absent (`None`). -/
theorem C9_vhost_walk_terminates :
    (∀ (fuel : Nat) (oracle : String → String) (sp : String) (k : Nat),
        sp.length < fuel → (vhostWalk oracle fuel sp k).isSome = true)
  ∧ (∀ (fuel : Nat) (oracle : String → String) (sp : String) (k : Nat),
        (∀ q, pyStrip (oracle q) = "") → sp.length < fuel →
        ∃ j, vhostWalk oracle fuel sp k = some (none, j)) :=
  ⟨vhostWalk_fuel_sufficient, vhostWalk_all_miss⟩

/-- C9 witness: the walk from `/var/www` with an oracle that never matches
completes within its fuel bound and answers absent. -/
theorem C9_witness :
    ((vhostWalk (fun _ => "") 9 "/var/www" 0).isSome = true)
  ∧ (∃ j, vhostWalk (fun _ => "") 9 "/var/www" 0 = some (none, j)) :=
  ⟨C9_vhost_walk_terminates.1 9 (fun _ => "") "/var/www" 0 (by decide),
   C9_vhost_walk_terminates.2 9 (fun _ => "") "/var/www" 0 (fun _ => rfl) (by decide)⟩

/-- `find_vhost_for_path` (source lines 167-196): answer from the forever
vhost cache when present; otherwise run the upward grep walk starting at
`os.path.dirname(file_path)` and cache the outcome (including absent)
keyed by the original file path.  The third component counts the grep
invocations performed by this call. -/
def find_vhost_for_path (grepQ : String → String)
    (cache : List (String × Option String)) (file_path : String) :
    Option String × List (String × Option String) × Nat :=
  match List.lookup file_path cache with
  | some v => (v, cache, 0)
  | none =>
    let sp := dirname file_path
    let w := (vhostWalk grepQ (sp.length + 1) sp 0).getD (none, 0)
    (w.1, (file_path, w.1) :: cache.filter (fun e => !(e.1 == file_path)), w.2)

/-- Python `str.splitlines()` restricted to `'\n'` separators; the strings
split here come from `subprocess` in text mode, where universal-newline
translation has already normalised line endings to `'\n'`. -/
def splitLinesAux : List Char → List Char → List String
  | [], [] => []
  | [], acc => [⟨acc.reverse⟩]
  | '\n' :: rest, acc => ⟨acc.reverse⟩ :: splitLinesAux rest []
  | c :: rest, acc => splitLinesAux rest (c :: acc)

def pySplitLines (s : String) : List String := splitLinesAux s.data []

/-- `re.match(r"^0{8,40}", line)` (source line 292): the line starts with
at least eight zero characters. -/
def zeroStart (line : String) : Bool :=
  ((line.data.take 8).length == 8) && (line.data.take 8).all (fun c => c == '0')

/-- `re.match(r"^[a-f0-9]{40}", line)` (source line 300): the line starts
with forty lowercase-hex characters. -/
def hex40Start (line : String) : Bool :=
  ((line.data.take 40).length == 40) &&
    (line.data.take 40).all (fun c => (('a' ≤ c) && (c ≤ 'f')) || (('0' ≤ c) && (c ≤ '9')))

/-- Python `str.strip("<>")`: drop leading and trailing `<` or `>`. -/
def stripAngles (s : String) : String :=
  ⟨((s.data.dropWhile (fun c => c == '<' || c == '>')).reverse.dropWhile
      (fun c => c == '<' || c == '>')).reverse⟩

/-- `line.split()[0]`: the first whitespace-delimited token (total version;
the call site only reaches it on a line that starts with a hex character,
so the token is non-empty there). -/
def firstToken (s : String) : String :=
  ⟨(s.data.dropWhile pyIsSpace).takeWhile (fun c => !pyIsSpace c)⟩

/-- Python `s[n:]` (character based). -/
def strDrop (n : Nat) (s : String) : String := ⟨s.data.drop n⟩

/-- Python `s[:n]` (character based). -/
def strTake (n : Nat) (s : String) : String := ⟨s.data.take n⟩

/-- Python `s.startswith(pre)`. -/
def pyStartsWith (pre s : String) : Bool := leadsWith pre.data s.data

/-- The `blame` dictionary built by `get_git_blame` (source lines
283-289). -/
structure Blame where
  author : Option String
  email : Option String
  commit : Option String
  summary : Option String
  is_local_changes : Bool
deriving DecidableEq

def blameInit : Blame :=
  { author := none, email := none, commit := none, summary := none,
    is_local_changes := false }

/-- One iteration of the porcelain parsing loop of `get_git_blame`
(source lines 291-301): the all-zero test is an independent `if`; the
remaining tests form an `elif` chain. -/
def parseBlameLine (b : Blame) (line : String) : Blame :=
  let b1 := if zeroStart line then { b with is_local_changes := true } else b
  if pyStartsWith "author " line then { b1 with author := some (strDrop 7 line) }
  else if pyStartsWith "author-mail " line then
    { b1 with email := some (stripAngles (strDrop 12 line)) }
  else if pyStartsWith "summary " line then { b1 with summary := some (strDrop 8 line) }
  else if hex40Start line then { b1 with commit := some (strTake 8 (firstToken line)) }
  else b1

def natOfDigits (ds : List Char) : Nat :=
  ds.foldl (fun n c => n * 10 + (c.toNat - 48)) 0

/-- Greedy `\d+`: at least one digit, returning its value and the rest. -/
def readDigits (l : List Char) : Option (Nat × List Char) :=
  if (l.takeWhile Char.isDigit).isEmpty then none
  else some (natOfDigits (l.takeWhile Char.isDigit), l.dropWhile Char.isDigit)

/-- The hunk-header pattern `^@@ -\d+(?:,\d+)? \+(\d+)(?:,(\d+))? @@`
(source line 313), returning the captured new-file start line and the
new-file line count (`1` when the optional count is absent, as in
`int(match.group(2)) if match.group(2) else 1`). -/
def parseHunkHeader (s : String) : Option (Nat × Nat) :=
  match s.data with
  | '@' :: '@' :: ' ' :: '-' :: rest =>
    match readDigits rest with
    | none => none
    | some (_, r1) =>
      let r2opt : Option (List Char) :=
        match r1 with
        | ',' :: r => (readDigits r).map Prod.snd
        | _ => some r1
      match r2opt with
      | none => none
      | some r2 =>
        match r2 with
        | ' ' :: '+' :: r3 =>
          match readDigits r3 with
          | none => none
          | some (startLine, r4) =>
            let cntOpt : Option (Nat × List Char) :=
              match r4 with
              | ',' :: r => readDigits r
              | _ => some (1, r4)
            match cntOpt with
            | none => none
            | some (count, r5) =>
              match r5 with
              | ' ' :: '@' :: '@' :: _ => some (startLine, count)
              | _ => none
        | _ => none
  | _ => none

/-- `s.startswith(c)` for a single character: the first character is `c`. -/
def headIs (c : Char) (s : String) : Bool :=
  match s.data with
  | [] => false
  | a :: _ => a == c

/-- One iteration of the diff-correlation loop of `get_git_blame` (source
lines 316-329) over state `(current_line, line_diff)`; a `some` second
component models the `break` after a line is selected.  The source
assigns `in_hunk = True` at the top of every iteration before testing it,
so the `elif in_hunk and ...` guard is always taken for non-header lines
(the hunk-bound value computed in the header branch is dead); the
embedding reflects that by testing only the `+`/`-`/space guard. -/
def diffStep (n : Nat) (st : Nat × Option String) (dl : String) : Nat × Option String :=
  match st.2 with
  | some _ => st
  | none =>
    match parseHunkHeader dl with
    | some (startLine, _) => (startLine, none)
    | none =>
      if headIs '+' dl || headIs '-' dl || headIs ' ' dl then
        if st.1 = n then (st.1, some dl)
        else if !(headIs '-' dl) then (st.1 + 1, none)
        else (st.1, none)
      else (st.1, none)

/-- The diff line selected for the requested line number, scanning the
whole `git diff` output with counter starting at `0`. -/
def findDiffLine (diff_output : String) (n : Nat) : Option String :=
  ((pySplitLines diff_output).foldl (diffStep n) (0, none)).2

/-- The synthesized summary for an uncommitted line (source lines
331-334): the file's last-modified ISO timestamp, plus the stripped diff
line after a separator when one was found. -/
def uncommittedSummary (lastModified : String) (lineDiff : Option String) : String :=
  match lineDiff with
  | some d => "[Uncommitted changes] Last modified: " ++ lastModified
      ++ " | Diff line: " ++ pyStrip d
  | none => "[Uncommitted changes] Last modified: " ++ lastModified

/-- The external world consulted by the enrichment pipeline.  Query
functions returning `Option` model `subprocess.check_output`, with `none`
for a `subprocess.CalledProcessError` (non-zero exit), the exception the
source catches.  `relpath`, `abspath` and `lastModifiedIso` model
`os.path.relpath`, `os.path.abspath` and
`datetime.fromtimestamp(os.path.getmtime(...)).isoformat()`.  `grepQ` is
the raw output of the `grep -l ... || true` shell command of the vhost
walk, and `remoteQ` the configured `remote.origin.url` (`none` when the
`git config` lookup fails, in which case the shell falls back to
`echo 'unknown'`). -/
structure GitEnv where
  relpath : String → String → String
  abspath : String → String
  blameQ : String → Nat → String → Option String
  diffQ : String → String → Option String
  lastModifiedIso : String → String
  rootQ : String → Option String
  remoteQ : String → Option String
  grepQ : String → String

/-- `get_git_blame` (source lines 260-341): absent when `repo_path` is
falsy; otherwise parse the porcelain blame output for the requested line,
and when an all-zero commit id was seen, correlate with the working-tree
diff and overwrite the summary with the synthesized description.  A failed
blame or diff invocation (`CalledProcessError`) is caught and converted to
absent by the surrounding `try`/`except`. -/
def get_git_blame (env : GitEnv) (file_path : String) (line_number : Nat) :
    Option String → Option Blame
  | none => none
  | some repo =>
    if repo = "" then none
    else
      match env.blameQ repo line_number (env.relpath file_path repo) with
      | none => none
      | some blame_output =>
        if ((pySplitLines blame_output).foldl parseBlameLine blameInit).is_local_changes then
          match env.diffQ repo (env.relpath file_path repo) with
          | none => none
          | some diff_output =>
            some { (pySplitLines blame_output).foldl parseBlameLine blameInit with
                   summary := some (uncommittedSummary (env.lastModifiedIso file_path)
                     (findDiffLine diff_output line_number)) }
        else some ((pySplitLines blame_output).foldl parseBlameLine blameInit)

theorem parseBlameLine_is (b : Blame) (l : String) :
    (parseBlameLine b l).is_local_changes = (b.is_local_changes || zeroStart l) := by
  cases hz : zeroStart l <;>
    simp [parseBlameLine, hz] <;> (repeat' split) <;> simp_all

theorem foldl_parseBlameLine_is (ls : List String) (b : Blame) :
    (ls.foldl parseBlameLine b).is_local_changes = (b.is_local_changes || ls.any zeroStart) := by
  induction ls generalizing b with
  | nil => simp
  | cons l ls ih =>
    simp [List.foldl_cons, ih, parseBlameLine_is, Bool.or_assoc]

/-- C4: whenever the parsed blame output contains a line opening with an
all-zero commit id (at least eight zeros), the returned `BlameInfo` has
`is_local_changes = true` and its `summary` is exactly the synthesized
description built from the file's last-modified ISO timestamp and, when
found, the matching stripped diff line after a separator — so the
git-supplied `summary` porcelain value never survives on this path. -/
theorem C4_uncommitted_summary :
    ∀ (env : GitEnv) (fp : String) (n : Nat) (repo out : String) (b : Blame),
      env.blameQ repo n (env.relpath fp repo) = some out →
      (pySplitLines out).any zeroStart = true →
      get_git_blame env fp n (some repo) = some b →
      b.is_local_changes = true
      ∧ ∃ d, env.diffQ repo (env.relpath fp repo) = some d
          ∧ b.summary = some (uncommittedSummary (env.lastModifiedIso fp)
              (findDiffLine d n)) := by
  intro env fp n repo out b hq hz hb
  have hloc : ((pySplitLines out).foldl parseBlameLine blameInit).is_local_changes = true := by
    rw [foldl_parseBlameLine_is, hz]
    rfl
  simp only [get_git_blame] at hb
  by_cases hr : repo = ""
  · rw [if_pos hr] at hb
    exact absurd hb (by simp)
  · rw [if_neg hr] at hb
    simp only [hq, hloc, eq_self_iff_true, if_true] at hb
    cases hd : env.diffQ repo (env.relpath fp repo) with
    | none =>
      rw [hd] at hb
      exact absurd hb (by simp)
    | some d =>
      rw [hd] at hb
      simp only [Option.some.injEq] at hb
      subst hb
      exact ⟨rfl, d, rfl, rfl⟩

/-- C6: a failure of the underlying version-control invocation — the
blame query, or the diff query taken on the uncommitted path — is caught
by the resolver and converted to an absent (`None`) result; the embedded
resolver is a total function into `Option`, so no exception reaches the
grouper or the enrichment pipeline. -/
theorem C6_blame_failure_absent :
    ∀ (env : GitEnv) (fp : String) (n : Nat) (repo : String), repo ≠ "" →
      (env.blameQ repo n (env.relpath fp repo) = none →
        get_git_blame env fp n (some repo) = none)
    ∧ (∀ out, env.blameQ repo n (env.relpath fp repo) = some out →
        ((pySplitLines out).foldl parseBlameLine blameInit).is_local_changes = true →
        env.diffQ repo (env.relpath fp repo) = none →
        get_git_blame env fp n (some repo) = none) := by
  intro env fp n repo hr
  constructor
  · intro hq
    simp only [get_git_blame]
    rw [if_neg hr]
    simp only [hq]
  · intro out hq hloc hd
    simp only [get_git_blame]
    rw [if_neg hr]
    simp only [hq, hloc, eq_self_iff_true, if_true, hd]

/-- C5: the diff-correlation scan takes the new-file line number from each
hunk header `@@ -a,b +c,d @@` as the new counter value; on a body line it
increments the counter for added (`+`) and context (space) lines but not
for removed (`-`) lines, and selects the first diff body line at which the
counter equals the requested line number; in particular for the hunk
`@@ -5,3 +5,4 @@` whose body carries the added line `+foo();` at new-file
line 7, the scan for line 7 selects exactly `+foo();`. -/
theorem C5_diff_correlation :
    (∀ (n cur : Nat) (l : String) (s c : Nat), parseHunkHeader l = some (s, c) →
        diffStep n (cur, none) l = (s, none))
  ∧ (∀ (n cur : Nat) (l : String), parseHunkHeader l = none →
        (headIs '+' l || headIs ' ' l) = true → cur ≠ n →
        diffStep n (cur, none) l = (cur + 1, none))
  ∧ (∀ (n cur : Nat) (l : String), parseHunkHeader l = none →
        headIs '-' l = true → cur ≠ n →
        diffStep n (cur, none) l = (cur, none))
  ∧ (∀ (n : Nat) (l : String), parseHunkHeader l = none →
        (headIs '+' l || headIs '-' l || headIs ' ' l) = true →
        diffStep n (n, none) l = (n, some l))
  ∧ parseHunkHeader "@@ -5,3 +5,4 @@" = some (5, 4)
  ∧ findDiffLine "@@ -5,3 +5,4 @@\n a\n b\n+foo();\n c" 7 = some "+foo();" := by
  refine ⟨?_, ?_, ?_, ?_, rfl, rfl⟩
  · intro n cur l s c h
    simp [diffStep, h]
  · intro n cur l h hsw hne
    rw [Bool.or_eq_true] at hsw
    have hminus : headIs '-' l = false := by
      cases hl : l.data with
      | nil => rcases hsw with h1 | h1 <;> simp [headIs, hl] at h1
      | cons a rest =>
        simp only [headIs, hl, beq_iff_eq] at hsw
        simp only [headIs, hl, beq_eq_false_iff_ne, ne_eq]
        rcases hsw with h1 | h1 <;> subst h1 <;> decide
    have hguard : (headIs '+' l || headIs '-' l || headIs ' ' l) = true := by
      rcases hsw with h1 | h1 <;> simp [h1]
    simp [diffStep, h, hguard, hne, hminus]
    intro h2
    rcases hsw with h1 | h1
    · exact absurd h1 (by rw [h2]; exact Bool.false_ne_true)
    · exact h1
  · intro n cur l h hsw hne
    simp [diffStep, h, hsw, hne]
  · intro n l h hsw
    simp [diffStep, h, hsw]

/-- C5 witness: the step facts evaluated on the concrete hunk body lines
of the claim's example. -/
theorem C5_witness :
    diffStep 7 (0, none) "@@ -5,3 +5,4 @@" = (5, none)
  ∧ diffStep 7 (5, none) " a" = (6, none)
  ∧ diffStep 7 (6, none) "-old" = (6, none)
  ∧ diffStep 7 (7, none) "+foo();" = (7, some "+foo();") :=
  ⟨C5_diff_correlation.1 7 0 "@@ -5,3 +5,4 @@" 5 4 (by rfl),
   C5_diff_correlation.2.1 7 5 " a" (by rfl) (by rfl) (by decide),
   C5_diff_correlation.2.2.1 7 6 "-old" (by rfl) (by rfl) (by decide),
   C5_diff_correlation.2.2.2.1 7 "+foo();" (by rfl) (by rfl)⟩

/-- Blame porcelain output for a line with uncommitted working-tree
changes, as used by the concrete witnesses. -/
def wBlameOut : String :=
  "0000000000000000000000000000000000000000 4 4 1\nauthor Jane\nauthor-mail <jane@x>\nsummary wip"

def wDiffOut : String := "@@ -3,2 +3,3 @@\n ctx\n+new line();\n ctx2"

/-- A concrete external world for the witnesses: every query succeeds. -/
def envW : GitEnv :=
  { relpath := fun fp _ => fp.drop 1
  , abspath := fun d => d
  , blameQ := fun _ _ _ => some wBlameOut
  , diffQ := fun _ _ => some wDiffOut
  , lastModifiedIso := fun _ => "2026-01-02T03:04:05"
  , rootQ := fun _ => some "/repo\n"
  , remoteQ := fun _ => some "git@example.com:r.git\n"
  , grepQ := fun _ => "" }

/-- C4 witness: the uncommitted-line path evaluated in the concrete world
`envW`. -/
theorem C4_witness :
    ((get_git_blame envW "/srv/a.php" 4 (some "/repo")).getD blameInit).is_local_changes = true
  ∧ ∃ d, envW.diffQ "/repo" (envW.relpath "/srv/a.php" "/repo") = some d
      ∧ ((get_git_blame envW "/srv/a.php" 4 (some "/repo")).getD blameInit).summary
          = some (uncommittedSummary (envW.lastModifiedIso "/srv/a.php") (findDiffLine d 4)) :=
  C4_uncommitted_summary envW "/srv/a.php" 4 "/repo" wBlameOut _ rfl (by decide) (by decide)

/-- The witness world with a failing blame invocation. -/
def envWB : GitEnv := { envW with blameQ := fun _ _ _ => none }

/-- The witness world with a failing diff invocation. -/
def envWD : GitEnv := { envW with diffQ := fun _ _ => none }

/-- C6 witness: a failing blame query and a failing diff query both yield
an absent blame result in the concrete worlds. -/
theorem C6_witness :
    get_git_blame envWB "/srv/a.php" 4 (some "/repo") = none
  ∧ get_git_blame envWD "/srv/a.php" 4 (some "/repo") = none :=
  ⟨(C6_blame_failure_absent envWB "/srv/a.php" 4 "/repo" (by decide)).1 rfl,
   (C6_blame_failure_absent envWD "/srv/a.php" 4 "/repo" (by decide)).2 wBlameOut rfl
     (by decide) rfl⟩

/-- A `cachetools.TTLCache` modelled lazily as an association list of
`(key, value, absolute expiry)`; both `key in cache` and `cache[key]`
see an entry only while `now` is before its expiry.  (The `maxsize`
eviction of the source caches is not exercised by two-call scenarios and
is not modelled.) -/
def ttlGet {α : Type} (now : Nat) (c : List (String × α × Nat)) (k : String) : Option α :=
  match List.lookup k c with
  | some (v, exp) => if now < exp then some v else none
  | none => none

/-- `cache[key] = value` on a TTL cache: the entry expires `ttl` seconds
from `now`. -/
def ttlPut {α : Type} (now ttl : Nat) (c : List (String × α × Nat)) (k : String) (v : α) :
    List (String × α × Nat) :=
  (k, v, now + ttl) :: c.filter (fun e => !(e.1 == k))

theorem ttlGet_ttlPut_same {α : Type} (now now2 ttl : Nat)
    (c : List (String × α × Nat)) (k : String) (v : α) (h : now2 < now + ttl) :
    ttlGet now2 (ttlPut now ttl c k v) k = some v := by
  simp [ttlGet, ttlPut, List.lookup, h]

/-- The `git rev-parse --show-toplevel` paragraph of `get_project_info`
(source lines 219-230): serve from `git_root_cache` when present,
otherwise run the query (stripping its output; `None` on
`CalledProcessError`) and cache the outcome, counting one underlying
invocation. -/
def resolveRoot (env : GitEnv) (now : Nat) (c : List (String × Option String × Nat))
    (dir : String) : Option String × List (String × Option String × Nat) × Nat :=
  match ttlGet now c dir with
  | some v => (v, c, 0)
  | none => ((env.rootQ dir).map pyStrip,
             ttlPut now 86400 c dir ((env.rootQ dir).map pyStrip), 1)

/-- The `git config --get remote.origin.url` paragraph of
`get_project_info` (source lines 232-238): serve from `git_remote_cache`
when present, otherwise run the shell command whose `|| echo 'unknown'`
fallback turns a missing or failed lookup into the literal `unknown`,
strip, and cache, counting one underlying invocation. -/
def resolveRemote (env : GitEnv) (now : Nat) (c : List (String × String × Nat))
    (dir : String) : String × List (String × String × Nat) × Nat :=
  match ttlGet now c dir with
  | some v => (v, c, 0)
  | none => (pyStrip ((env.remoteQ dir).getD "unknown"),
             ttlPut now 86400 c dir (pyStrip ((env.remoteQ dir).getD "unknown")), 1)

/-- The blame paragraph of `get_project_info` (source lines 240-249),
kept with its original shape: compute the blame and store it, then check
the cache that was just populated (a hit, taking the stored value) with a
compute-and-store fallback for a miss.  The third component counts how
many times `get_git_blame` was computed. -/
def blameSection (env : GitEnv) (now : Nat) (c : List (String × Option Blame × Nat))
    (key file : String) (n : Nat) (root : Option String) :
    Option Blame × List (String × Option Blame × Nat) × Nat :=
  match ttlGet now (ttlPut now 86400 c key (get_git_blame env file n root)) key with
  | some b => (b, ttlPut now 86400 c key (get_git_blame env file n root), 1)
  | none => (get_git_blame env file n root,
             ttlPut now 86400 (ttlPut now 86400 c key (get_git_blame env file n root)) key
               (get_git_blame env file n root), 2)

/-- `" on line "` followed by at least one digit starts here, with the
digit run captured greedily (`\d+`). -/
def onLineAt (v : List Char) : Bool :=
  leadsWith (" on line ").data v &&
    (match v.drop 9 with
     | c :: _ => c.isDigit
     | [] => false)

def natOfDigitsAfter (v : List Char) : Nat :=
  natOfDigits ((v.drop 9).takeWhile Char.isDigit)

/-- The lazy group `(.+?)` of `re.search(r'in (.+?) on line (\d+)', ...)`:
after `in `, accumulate file characters one at a time (never across a
newline, since `.` does not match `\n`), stopping at the first position
followed by `" on line "` and a digit. -/
def findSplit : List Char → List Char → Option (String × Nat)
  | [], _ => none
  | c :: rest, acc =>
    if c = '\n' then none
    else if onLineAt rest then some (⟨(c :: acc).reverse⟩, natOfDigitsAfter rest)
    else findSplit rest (c :: acc)

def matchInAt : List Char → Option (String × Nat)
  | 'i' :: 'n' :: ' ' :: v => findSplit v []
  | _ => none

/-- `re.search(r'in (.+?) on line (\d+)', error_line)` (source line 208):
the leftmost position where the whole pattern matches, with the lazy file
group and the greedy digit group. -/
def extractFileLine : List Char → Option (String × Nat)
  | [] => none
  | c :: rest =>
    match matchInAt (c :: rest) with
    | some r => some r
    | none => extractFileLine rest

/-- The structured dictionary returned by `get_project_info` (source
lines 251-258).  It has six fields: the five of the spec's
ProvenanceRecord plus `error_line`, the stripped raw trace. -/
structure Record where
  file : String
  line : Nat
  vhost : Option String
  git_remote : String
  error_line : String
  blame : Option Blame
deriving DecidableEq

/-- The four process-wide caches of the watcher (source lines 51-54). -/
structure Caches where
  vhost : List (String × Option String)
  gitRoot : List (String × Option String × Nat)
  gitRemote : List (String × String × Nat)
  gitBlame : List (String × Option Blame × Nat)
deriving DecidableEq

def emptyCaches : Caches := ⟨[], [], [], []⟩

/-- Counters for the underlying external invocations performed by one
`get_project_info` call: grep commands of the vhost walk, `git rev-parse`
root queries, `git config` remote queries, and `get_git_blame`
computations. -/
structure Calls where
  grep : Nat
  root : Nat
  remote : Nat
  blame : Nat
deriving DecidableEq

/-- `get_project_info` (source lines 198-258): extract the first
`in <file> on line <N>` reference (absent result when there is none),
resolve the vhost by file path, the repo root and remote by the absolute
containing directory, and the blame by file and line, and assemble the
six-field record.  Returns the record, the updated caches, and the
invocation counts. -/
def get_project_info (env : GitEnv) (now : Nat) (st : Caches) (error_line : String) :
    Option Record × Caches × Calls :=
  match extractFileLine error_line.data with
  | none => (none, st, ⟨0, 0, 0, 0⟩)
  | some (f, n) =>
    let file_path := pyStrip f
    let dir_path := env.abspath (dirname file_path)
    let fv := find_vhost_for_path env.grepQ st.vhost file_path
    let rr := resolveRoot env now st.gitRoot dir_path
    let rm := resolveRemote env now st.gitRemote dir_path
    let bs := blameSection env now st.gitBlame (file_path ++ ":" ++ toString n)
                file_path n rr.1
    (some { file := file_path, line := n,
            vhost := match fv.1 with
                     | some v => if v = "" then none else some (pyStrip v)
                     | none => none,
            git_remote := rm.1,
            error_line := pyStrip error_line,
            blame := bs.1 },
     ⟨fv.2.1, rr.2.1, rm.2.1, bs.2.1⟩,
     ⟨fv.2.2, rr.2.2, rm.2.2, bs.2.2⟩)

/-- C2 (amended): the vhost, repo-root and remote resolvers follow
check-cache, compute-on-miss, store: a second call with the same key
before TTL expiry returns the identical value, leaves the cache unchanged
and performs zero underlying invocations.  The blame paragraph instead
computes and stores on every call and then reads back the entry it just
wrote (its compute-on-miss branch is dead), so the second call performs
one further blame computation, although the value it returns is the same. -/
theorem C2_resolver_caching :
    ∀ (env : GitEnv) (g : String → String) (now1 now2 : Nat)
      (rc : List (String × Option String × Nat)) (mc : List (String × String × Nat))
      (bc : List (String × Option Blame × Nat)) (vc : List (String × Option String))
      (dir fp key file : String) (n : Nat) (root : Option String),
      (ttlGet now1 rc dir = none → now2 < now1 + 86400 →
        resolveRoot env now2 (resolveRoot env now1 rc dir).2.1 dir
          = ((resolveRoot env now1 rc dir).1, (resolveRoot env now1 rc dir).2.1, 0))
    ∧ (ttlGet now1 mc dir = none → now2 < now1 + 86400 →
        resolveRemote env now2 (resolveRemote env now1 mc dir).2.1 dir
          = ((resolveRemote env now1 mc dir).1, (resolveRemote env now1 mc dir).2.1, 0))
    ∧ (find_vhost_for_path g (find_vhost_for_path g vc fp).2.1 fp
          = ((find_vhost_for_path g vc fp).1, (find_vhost_for_path g vc fp).2.1, 0))
    ∧ ((blameSection env now2 (blameSection env now1 bc key file n root).2.1 key file n root).1
          = (blameSection env now1 bc key file n root).1
       ∧ (blameSection env now2 (blameSection env now1 bc key file n root).2.1
            key file n root).2.2 = 1) := by
  intro env g now1 now2 rc mc bc vc dir fp key file n root
  refine ⟨?_, ?_, ?_, ?_⟩
  · intro h1 h2
    simp only [resolveRoot, h1,
      ttlGet_ttlPut_same now1 now2 86400 rc dir ((env.rootQ dir).map pyStrip) h2]
  · intro h1 h2
    simp only [resolveRemote, h1,
      ttlGet_ttlPut_same now1 now2 86400 mc dir (pyStrip ((env.remoteQ dir).getD "unknown")) h2]
  · cases hl : List.lookup fp vc with
    | some v => simp only [find_vhost_for_path, hl]
    | none =>
      simp only [find_vhost_for_path, hl, List.lookup]
      simp
  · have e1 := ttlGet_ttlPut_same now1 now1 86400 bc key
      (get_git_blame env file n root) (by omega)
    have hfirst : blameSection env now1 bc key file n root
        = (get_git_blame env file n root,
           ttlPut now1 86400 bc key (get_git_blame env file n root), 1) := by
      simp only [blameSection, e1]
    rw [hfirst]
    have e2 := ttlGet_ttlPut_same now2 now2 86400
      (ttlPut now1 86400 bc key (get_git_blame env file n root)) key
      (get_git_blame env file n root) (by omega)
    constructor
    · simp only [blameSection, e2]
    · simp only [blameSection, e2]

/-- C2 counterexample: the claim asserts that a cached blame entry
suppresses a second blame computation.  After a first `get_project_info`
call has populated every cache, a second call on the same trace 10
seconds later (well within the 24-hour TTL) still performs one blame
computation — the blame paragraph recomputes before consulting the cache
it just wrote. -/
theorem C2_counterexample :
    (get_project_info envW 10
        (get_project_info envW 0 emptyCaches
          "PHP Fatal error: boom in /srv/a.php on line 4").2.1
        "PHP Fatal error: boom in /srv/a.php on line 4").2.2.blame ≠ 0 := by
  decide

/-- C2 witness: the cached second calls of the amended theorem evaluated
in the concrete world `envW`. -/
theorem C2_witness :
    (resolveRoot envW 10 (resolveRoot envW 0 [] "/d").2.1 "/d"
       = ((resolveRoot envW 0 [] "/d").1, (resolveRoot envW 0 [] "/d").2.1, 0))
  ∧ (resolveRemote envW 10 (resolveRemote envW 0 [] "/d").2.1 "/d"
       = ((resolveRemote envW 0 [] "/d").1, (resolveRemote envW 0 [] "/d").2.1, 0))
  ∧ (find_vhost_for_path envW.grepQ
        (find_vhost_for_path envW.grepQ [] "/d/a.php").2.1 "/d/a.php"
       = ((find_vhost_for_path envW.grepQ [] "/d/a.php").1,
          (find_vhost_for_path envW.grepQ [] "/d/a.php").2.1, 0))
  ∧ ((blameSection envW 10 (blameSection envW 0 [] "k" "/d/a.php" 3 (some "/repo")).2.1
        "k" "/d/a.php" 3 (some "/repo")).1
       = (blameSection envW 0 [] "k" "/d/a.php" 3 (some "/repo")).1) :=
  ⟨(C2_resolver_caching envW envW.grepQ 0 10 [] [] [] [] "/d" "/d/a.php" "k" "/d/a.php" 3
      (some "/repo")).1 rfl (by omega),
   (C2_resolver_caching envW envW.grepQ 0 10 [] [] [] [] "/d" "/d/a.php" "k" "/d/a.php" 3
      (some "/repo")).2.1 rfl (by omega),
   (C2_resolver_caching envW envW.grepQ 0 10 [] [] [] [] "/d" "/d/a.php" "k" "/d/a.php" 3
      (some "/repo")).2.2.1,
   (C2_resolver_caching envW envW.grepQ 0 10 [] [] [] [] "/d" "/d/a.php" "k" "/d/a.php" 3
      (some "/repo")).2.2.2.1⟩

/-- C7: the remote resolver has no absent state — when no remote origin
URL is configured (or the `git config` lookup fails), the shell fallback
makes it return the literal string `unknown` — while the repo-root
resolver returns an absent value (`None`), not a sentinel, when the
directory is not inside a repository (`git rev-parse` exits non-zero). -/
theorem C7_remote_sentinel_root_absent :
    ∀ (env : GitEnv) (now : Nat) (rc : List (String × Option String × Nat))
      (mc : List (String × String × Nat)) (dir : String),
      (ttlGet now mc dir = none → env.remoteQ dir = none →
        (resolveRemote env now mc dir).1 = "unknown")
    ∧ (ttlGet now rc dir = none → env.rootQ dir = none →
        (resolveRoot env now rc dir).1 = none) := by
  intro env now rc mc dir
  constructor
  · intro h1 h2
    simp only [resolveRemote, h1, h2]
    rfl
  · intro h1 h2
    simp only [resolveRoot, h1, h2, Option.map_none']

/-- The witness world in which the directory is not a repository and no
remote is configured. -/
def envN : GitEnv := { envW with rootQ := fun _ => none, remoteQ := fun _ => none }

/-- C7 witness: the sentinel and the absent result evaluated in the
concrete world `envN` on empty caches. -/
theorem C7_witness :
    (resolveRemote envN 0 [] "/var/www").1 = "unknown"
  ∧ (resolveRoot envN 0 [] "/var/www").1 = none :=
  ⟨(C7_remote_sentinel_root_absent envN 0 [] [] "/var/www").1 rfl rfl,
   (C7_remote_sentinel_root_absent envN 0 [] [] "/var/www").2 rfl rfl⟩

/-- C10: whenever enrichment extracts a file/line reference and returns a
record, that record carries — besides the five fields of the spec's
ProvenanceRecord (`file`, `line`, `vhost`, `git_remote`, `blame`) — the
sixth field `error_line`, equal to the raw input trace stripped of
surrounding whitespace (`error_line.strip()`, source line 256); the spec
data model does not list this field. -/
theorem C10_record_error_line :
    ∀ (env : GitEnv) (now : Nat) (st : Caches) (tr : String) (r : Record),
      (get_project_info env now st tr).1 = some r →
      r.error_line = pyStrip tr := by
  intro env now st tr r h
  cases hx : extractFileLine tr.data with
  | none =>
    simp only [get_project_info, hx] at h
    exact absurd h (by simp)
  | some p =>
    obtain ⟨f, n⟩ := p
    simp only [get_project_info, hx, Option.some.injEq] at h
    rw [← h]

def defaultRecord : Record := ⟨"", 0, none, "", "", none⟩

/-- C10 witness: the record produced for a concrete trace in the world
`envW` carries the stripped raw trace in `error_line`. -/
theorem C10_witness :
    ((get_project_info envW 0 emptyCaches
        "PHP Fatal error: boom in /srv/a.php on line 4").1.getD defaultRecord).error_line
      = pyStrip "PHP Fatal error: boom in /srv/a.php on line 4" :=
  C10_record_error_line envW 0 emptyCaches
    "PHP Fatal error: boom in /srv/a.php on line 4" _ (by decide)

/-- What `tail_log` does before entering its loop (source lines 115-121):
`config.get("log_file")` may be absent or empty (both falsy), the path is
then tested with `os.path.isfile`, and the file is opened for reading.
`open` on an existing but unreadable file raises `PermissionError`; the
generator body contains no handler for it, so it propagates to the
caller.  The three outcomes are: yield nothing, tail the opened file, or
raise. -/
inductive TailStart
  | empty
  | opened
  | exnPermission
deriving DecidableEq

def tail_log_startup (log_file : Option String) (isfile readable : String → Bool) :
    TailStart :=
  match log_file with
  | none => .empty
  | some lf =>
    if lf = "" then .empty
    else if !(isfile lf) then .empty
    else if readable lf then .opened
    else .exnPermission

/-- C8: the claim states the trace sequence is empty with no escaping
exception for both a missing and an unreadable log path.  The missing
cases (unset path, or path failing `os.path.isfile`) do yield the empty
sequence; but for an existing file that is not readable, `os.path.isfile`
succeeds and `open(log_file, 'r')` raises `PermissionError`, which
nothing in `tail_log` catches — contradicting the claim (and the
docstring's promise to log access issues). -/
theorem C8_startup_missing_empty_unreadable_raises :
    tail_log_startup none (fun _ => true) (fun _ => true) = .empty
  ∧ tail_log_startup (some "app.log") (fun _ => false) (fun _ => true) = .empty
  ∧ tail_log_startup (some "app.log") (fun _ => true) (fun _ => false) = .exnPermission :=
  ⟨rfl, rfl, rfl⟩
